import Mathlib

/-!
Verification of core behaviours of the ZFS fleet-management / dropbox-monitoring
system against its specification.  Python code is shallowly embedded: stateful
ORM objects become records, mutation becomes explicit state passing, SQL tables
become lists of rows, and datetimes become seconds since the epoch (`Int`).
-/

set_option maxRecDepth 10000
set_option synthInstance.maxSize 1000

/-! ## Transaction engine (fsmonitor/sql/orm.py, fsmonitor/transaction) -/

/-- Embedding of the `SQLPackageTransaction` row (fsmonitor/sql/orm.py).
Datetimes are seconds since the epoch; `percent_done` is a nullable number. -/
structure SQLPackageTransaction where
  typeName : String
  approvedByLogin : Option String
  percentDone : Option Rat
  startedAt : Option Int
  finishedAt : Option Int
  error : Option String
  comment : Option String
  inPackageStableSince : Int
deriving DecidableEq, Repr

/-- `SQLPackageTransaction.cancel` (orm.py): sets `finished_at` to now when it
is still NULL; touches no other column. -/
def SQLPackageTransaction.cancel (t : SQLPackageTransaction) (now : Int) :
    SQLPackageTransaction :=
  if t.finishedAt = none then { t with finishedAt := some now } else t

/-- `DropboxTransactionProgressIndicatorMixin.end` (transaction/base.py): sets
`finished_at` unconditionally and commits, touching no other column. -/
def SQLPackageTransaction.progressEnd (t : SQLPackageTransaction) (now : Int) :
    SQLPackageTransaction :=
  { t with finishedAt := some now }

/-- `DropboxTransactionBase._completed` (transaction/base.py): on an exception
record the error, otherwise set `percent_done = 100.0`; in both cases set
`finished_at` to now.  (`_add_package_files` writes a separate table and does
not touch this row.) -/
def SQLPackageTransaction.completed (t : SQLPackageTransaction)
    (exception : Option String) (now : Int) : SQLPackageTransaction :=
  let t1 := match exception with
    | some e => { t with error := some e }
    | none => { t with percentDone := some 100 }
  { t1 with finishedAt := some now }

/-- `SQLPackageTransaction.is_rejected` (orm.py). -/
def SQLPackageTransaction.isRejected (t : SQLPackageTransaction) : Bool :=
  t.approvedByLogin == some "REJECTED"

/-- Embedding of an `SQLPackage` row restricted to the fields that
`TransferDropboxTransaction.can_enqueue` reads. -/
structure SQLPackage where
  stableSince : Int
  inTransactions : List SQLPackageTransaction
deriving Repr

/-- The test `trans.comment and trans.comment.startswith(config.mode)`:
a non-NULL, non-empty comment starting with the mode string. -/
def commentMatches (t : SQLPackageTransaction) (mode : String) : Bool :=
  match t.comment with
  | some c => c ≠ "" && mode.data.isPrefixOf c.data
  | none => false

/-- A prior successful transfer of the same mode for the same package state:
`error is None`, comment starts with the mode, and `in_package_stable_since`
equals the package's current `stable_since`. -/
def successfulSameState (t : SQLPackageTransaction) (mode : String)
    (stableSince : Int) : Bool :=
  t.error == none && commentMatches t mode && t.inPackageStableSince == stableSince

/-- `TransferDropboxTransaction.can_enqueue` (transaction/transfer.py):
refuse if a prior transfer transaction was rejected; always allow `move`;
otherwise refuse iff a prior successful transfer of this mode matches the
package's current `stable_since`. -/
def TransferDropboxTransaction.canEnqueue (p : SQLPackage) (mode : String) : Bool :=
  let trs := p.inTransactions.reverse.filter (fun t => t.typeName == "transfer")
  if trs.any SQLPackageTransaction.isRejected then false
  else if mode == "move" then true
  else if trs.any (fun t => successfulSameState t mode p.stableSince) then false
  else true

/-! ## ZFS state store sync (zfs/sql/session.py) -/

/-- A row of the `zpool`/`zdataset` tables: primary key `(host, name)` plus the
`updated_at` stamp `sync` writes.  The remaining columns are carried by the
sample and are irrelevant to the claims. -/
structure ZRow where
  host : String
  name : String
  updatedAt : Int
deriving DecidableEq, Repr

/-- `Session.merge`: upsert by the primary key `(host, name)`. -/
def mergeRow (db : List ZRow) (r : ZRow) : List ZRow :=
  if db.any (fun x => x.host == r.host && x.name == r.name) then
    db.map (fun x => if x.host == r.host && x.name == r.name then r else x)
  else db ++ [r]

/-- `ZSession.sync` (zfs/sql/session.py).  Samples are reduced to the entity
names they carry (the `host` column is overwritten with the `host` argument and
`updated_at` with `now`).  With no samples it returns before touching the
database.  Existing names are gathered for the given host only, but the chunked
delete statement filters by `name` alone — it carries no host filter, exactly
as in the source.  The 50-name chunks partition the deleted set, so the
sequence of deletes removes precisely the rows whose name is in the set. -/
def ZSession.sync (db : List ZRow) (host : String) (samples : List String)
    (now : Int) : List ZRow :=
  if samples.isEmpty then db
  else
    let exNames := (db.filter (fun r => r.host == host)).map (fun r => r.name)
    let deletedNames := exNames.filter (fun n => !samples.contains n)
    let db1 := db.filter (fun r => !deletedNames.contains r.name)
    samples.foldl (fun d n => mergeRow d ⟨host, n, now⟩) db1

/-! ## Retention policy evaluator (bit/retention.py) -/

/-- A sample: timestamp (seconds since the epoch, datetimes compare like their
second values) and an opaque payload tag. -/
abbrev Sample := Int × Nat

/-- Stable insertion into an ascending run: the new element goes before the
first element with a key not below its own.  Used to model Python's stable
`sorted`. -/
def insertByKey (key : α → Int) (x : α) : List α → List α
  | [] => [x]
  | y :: ys => if key y < key x then y :: insertByKey key x ys else x :: y :: ys

/-- Stable sort ascending by an integer key (Python's `sorted(key=...)`). -/
def sortByKey (key : α → Int) : List α → List α
  | [] => []
  | x :: xs => insertByKey key x (sortByKey key xs)

/-- Python slice `xs[:n]` for a possibly negative `n`. -/
def pyTake (n : Int) (xs : List α) : List α :=
  if 0 ≤ n then xs.take n.toNat else xs.take (xs.length - min xs.length (-n).toNat)

/-- Python slice `xs[n:]` for a possibly negative `n`. -/
def pyDrop (n : Int) (xs : List α) : List α :=
  if 0 ≤ n then xs.drop n.toNat else xs.drop (xs.length - min xs.length (-n).toNat)

/-- The inner `for sid in xrange(sid, ls)` loop of `RetentionPolicy.filter`:
future samples and the initial-keep budget go to `fs` (decrementing
`self._keep_initial`), samples at or before `from_date` break the loop, the
rest accumulate in `retention_samples`.  Returns the loop variable `sid` as
Python leaves it (last value assigned, bumped past the end when the final
element lands in the retention list), the mutated keep counter, `fs` and the
retention list.  The fuel argument equals `samples.length - i` at every call,
so the recursion mirrors the loop exactly. -/
def collectLoopAux (samples : List Sample) (toDate fromDate : Int) :
    Nat → Nat → Int → List Sample → List Sample →
    Nat × Int × List Sample × List Sample
  | 0, i, ki, fs, ret => (i, ki, fs, ret)
  | fuel + 1, i, ki, fs, ret =>
    match samples[i]? with
    | none => (i, ki, fs, ret)
    | some s =>
      if toDate < s.1 ∨ 0 < ki then
        if i + 1 < samples.length then
          collectLoopAux samples toDate fromDate fuel (i + 1) (ki - 1) (fs ++ [s]) ret
        else (i, ki - 1, fs ++ [s], ret)
      else if s.1 ≤ fromDate then (i, ki, fs, ret)
      else
        if i + 1 < samples.length then
          collectLoopAux samples toDate fromDate fuel (i + 1) ki fs (ret ++ [s])
        else (i + 1, ki, fs, ret ++ [s])

/-- Entry point of the sample-collection loop for one retention period. -/
def collectLoop (samples : List Sample) (toDate fromDate : Int) (sid : Nat)
    (ki : Int) (fs : List Sample) : Nat × Int × List Sample × List Sample :=
  collectLoopAux samples toDate fromDate (samples.length - sid) sid ki fs []

/-- `bisect.bisect_left` on an ascending list: the number of elements below the
probe. -/
def bisectLeft (lut : List Int) (x : Int) : Nat :=
  (lut.takeWhile (fun d => d < x)).length

/-- The raster date a sample is assigned to (`raster_lut[bisect_left(...)]`).
The index is always in range for samples inside the period. -/
def rasterDateOf (lut : List Int) (s : Sample) : Int :=
  lut.getD (bisectLeft lut s.1) 0

/-- The cluster-pruning loop: walk raster dates newest first; in each cluster
keep the sample closest to the raster date (stable sort by distance) and drop
the rest from the retention list until the excess count reaches zero.  Cluster
membership is computed against the retention list as it was when the raster
map was built (`origRet`), mirroring the prebuilt `raster_lut_map`. -/
def pruneClustersAux (toDate : Int) (lut : List Int) (origRet : List Sample) :
    List Int → List Sample → List Sample → Int → List Sample × List Sample
  | [], ret, ds, _ => (ret, ds)
  | rd :: rest, ret, ds, toRemove =>
    if toRemove = 0 then (ret, ds)
    else
      let cl := origRet.filter (fun s => rasterDateOf lut s == rd)
      let dl := cl.map (fun s => ((toDate - s.1 : Int), s))
      let sorted := sortByKey (fun p => p.1) dl
      let victims := ((sorted.drop 1).take toRemove.toNat).map (fun p => p.2)
      let ret1 := victims.foldl (fun l v => l.erase v) ret
      pruneClustersAux toDate lut origRet rest ret1 (ds ++ victims)
        (toRemove - victims.length)

/-- The mutable loop state of `RetentionPolicy.filter`, threaded explicitly:
the period boundary `to_time`, the shared sample cursor `sid`, the (mutated!)
`self._keep_initial` counter, and the `ns` / `fs` / `ds` lists. -/
structure FilterSt where
  toTime : Int
  sid : Nat
  ki : Int
  ns : List Sample
  fs : List Sample
  ds : List Sample
deriving DecidableEq, Repr

/-- One iteration of the `for rid, (keep, frequency, retention_span)` loop of
`RetentionPolicy.filter`: collect the period's samples, keep the `keep:`
newest unconditionally, then either prune down to `retention_span/frequency`
raster slots, or — in the last period only — top the list up with older
samples (Python re-reads `samples[sid]` here, which can duplicate samples that
already went to `fs`, and always bumps `sid` once after the top-up loop). -/
def applyRule (samples : List Sample) (isLast : Bool) (st : FilterSt)
    (keep freq span : Nat) : FilterSt :=
  let fromTime := st.toTime - span
  let (sid1, ki1, fs1, ret) := collectLoop samples st.toTime fromTime st.sid st.ki st.fs
  let ns1 := st.ns ++ ret.take keep
  let ret1 := ret.drop keep
  let budget := span / freq
  let toRemove : Int := (ret1.length : Int) - (budget : Int)
  if 0 < toRemove then
    let lut := fromTime :: ((List.range budget).reverse.map
        (fun step => st.toTime - (step * freq : Nat)))
    let pr := pruneClustersAux st.toTime lut ret1 lut.reverse ret1 st.ds toRemove
    ⟨fromTime, sid1, ki1, ns1 ++ pr.1, fs1, pr.2⟩
  else if isLast ∧ toRemove < 0 then
    let numKeep := (-toRemove).toNat
    let cnt : Int := min ((samples.length : Int) - (sid1 : Int)) (numKeep : Int)
    if 0 < cnt then
      ⟨fromTime, sid1 + cnt.toNat, ki1,
        ns1 ++ (ret1 ++ ((samples.drop sid1).take cnt.toNat)), fs1, st.ds⟩
    else ⟨fromTime, sid1 + 1, ki1, ns1 ++ ret1, fs1, st.ds⟩
  else ⟨fromTime, sid1, ki1, ns1 ++ ret1, fs1, st.ds⟩

/-- Fold `applyRule` over the rule list, flagging the last rule. -/
def applyRules (samples : List Sample) : List (Nat × Nat × Nat) → FilterSt → FilterSt
  | [], st => st
  | [r], st => applyRule samples true st r.1 r.2.1 r.2.2
  | r :: r2 :: rest, st =>
    applyRules samples (r2 :: rest) (applyRule samples false st r.1 r.2.1 r.2.2)

/-- `RetentionPolicy.filter` (bit/retention.py), with the policy state made
explicit: `rules` is the parsed `(keep, frequency, duration)` list and
`keepInitial` the current value of the `self._keep_initial` member.  Returns
`(new_samples, removed_samples)` plus the value `self._keep_initial` holds
after the call — the method decrements the member in place.  Input samples are
taken unordered (`ordered=False`), sorted ascending by timestamp and
reversed, as in the source. -/
def RetentionPolicy.filter (rules : List (Nat × Nat × Nat)) (keepInitial : Int)
    (now : Int) (samples : List Sample) : List Sample × List Sample × Int :=
  let sortedR := (sortByKey (fun s => s.1) samples).reverse
  if keepInitial ≠ 0 ∧ rules = [] then
    (pyTake keepInitial sortedR, pyDrop keepInitial sortedR, keepInitial)
  else
    let fin := applyRules sortedR rules ⟨now, 0, keepInitial, [], [], []⟩
    let ns := if fin.fs ≠ [] then fin.fs ++ fin.ns else fin.ns
    (ns, fin.ds ++ sortedR.drop fin.sid, fin.ki)

/-! ## ZFS URLs (zfs/url.py) -/

/-- The scheme characters accepted by the copied `urlsplit` (zfs/url.py). -/
def schemeChar (c : Char) : Bool :=
  ('a' ≤ c ∧ c ≤ 'z') ∨ ('A' ≤ c ∧ c ≤ 'Z') ∨ ('0' ≤ c ∧ c ≤ '9') ∨
    c = '+' ∨ c = '-' ∨ c = '.'

/-- ASCII lower-casing, as `str.lower` acts on scheme strings. -/
def lowerAscii (c : Char) : Char :=
  if 'A' ≤ c ∧ c ≤ 'Z' then Char.ofNat (c.toNat + 32) else c

/-- The five components produced by `urlsplit`. -/
structure SplitRes where
  scheme : List Char
  netloc : List Char
  path : List Char
  query : List Char
  fragment : List Char
deriving DecidableEq, Repr

/-- `urlparse._splitnetloc`: the netloc runs from position 2 to the first of
`/`, `?` or `#` (or the end). -/
def splitnetloc (url : List Char) : List Char × List Char :=
  let rest := url.drop 2
  let idx := rest.findIdx (fun c => c = '/' ∨ c = '?' ∨ c = '#')
  (rest.take idx, rest.drop idx)

/-- Python `s.split(c, 1)`: the part before the first occurrence and the part
after it. -/
def splitOnceAt (s : List Char) (c : Char) : List Char × List Char :=
  match s.findIdx? (fun d => d = c) with
  | some i => (s.take i, s.drop (i + 1))
  | none => (s, [])

/-- The `urlsplit` copied into zfs/url.py (stdlib minus its special cases):
detect a scheme before the first `:` made of scheme characters, strip a
`//netloc`, then split off fragment and query. -/
def urlsplit (url0 : List Char) : SplitRes :=
  let p1 : List Char × List Char :=
    match url0.findIdx? (fun c => c = ':') with
    | some i =>
      if 0 < i ∧ (url0.take i).all schemeChar then
        ((url0.take i).map lowerAscii, url0.drop (i + 1))
      else ([], url0)
    | none => ([], url0)
  let scheme := p1.1
  let url1 := p1.2
  let p2 := if url1.take 2 = ['/', '/'] then splitnetloc url1 else ([], url1)
  let p3 := if p2.2.contains '#' then splitOnceAt p2.2 '#' else (p2.2, [])
  let p4 := if p3.1.contains '?' then splitOnceAt p3.1 '?' else (p3.1, [])
  ⟨scheme, p2.1, p4.1, p4.2, p3.2⟩

/-- A `ZFSURL` wraps the split result; equality is equality of the split
components, as in `ZFSURL.__eq__`. -/
structure ZFSURL where
  u : SplitRes
deriving DecidableEq, Repr

/-- `ZFSURL(url)`. -/
def ZFSURL.ofChars (s : List Char) : ZFSURL := ⟨urlsplit s⟩

/-- `ZFSURL.name`: the path without its leading slash, with one trailing slash
stripped. -/
def ZFSURL.name (z : ZFSURL) : List Char :=
  let n := z.u.path.drop 1
  if n.getLast? = some '/' then n.dropLast else n

/-- `ZFSURL.host`. -/
def ZFSURL.host (z : ZFSURL) : List Char := z.u.netloc

/-- `ZFSURL.is_snapshot`: an `@` anywhere in the path. -/
def ZFSURL.isSnapshot (z : ZFSURL) : Bool := z.u.path.contains '@'

/-- `ZFSURL.snapshot`: the full dataset name when the URL is a snapshot. -/
def ZFSURL.snapshot (z : ZFSURL) : Option (List Char) :=
  if z.u.path.contains '@' then some z.name else none

/-- Python `s.split(c)[-1]`: everything after the last occurrence of `c` (the
whole string when `c` does not occur). -/
def afterLast (s : List Char) (c : Char) : List Char :=
  ((s.reverse.takeWhile (fun d => d ≠ c)).reverse)

/-- `ZFSURL.snapshot_name`: the bare snapshot name, `none` for
non-snapshots. -/
def ZFSURL.snapshotName (z : ZFSURL) : Option (List Char) :=
  (z.snapshot).map (fun ss => afterLast ss '@')

/-- `ZFSURL.filesystem`: the name up to the first `@`. -/
def ZFSURL.filesystem (z : ZFSURL) : List Char :=
  let fs := z.name
  if fs.contains '@' then fs.takeWhile (fun d => d ≠ '@') else fs

/-- `ZFSURL.new_from_dataset`: pool-only datasets get a trailing slash (the
pool-filesystem form) when `as_dataset` is set; then parse
`zfs://host/dataset`. -/
def ZFSURL.newFromDataset (host dataset : List Char) (asDataset : Bool) : ZFSURL :=
  let d := if asDataset ∧ dataset.count '/' = 0 then dataset ++ ['/'] else dataset
  ZFSURL.ofChars ("zfs://".data ++ host ++ ['/'] ++ d)

/-- `ZFSURL.parent_filesystem_url`: for snapshots, the owning filesystem; for
pool filesystems, `none`; otherwise the filesystem one path segment up. -/
def ZFSURL.parentFilesystemUrl (z : ZFSURL) : Option ZFSURL :=
  if z.isSnapshot then some (ZFSURL.newFromDataset z.host z.filesystem true)
  else
    let tokens := z.filesystem.splitOn '/'
    if tokens.length = 1 then none
    else some (ZFSURL.newFromDataset z.host (List.intercalate ['/'] tokens.dropLast) true)

/-- Models the stdlib collaborator `urlparse.parse_qs` for plain query strings
(no percent-escapes, no plus signs): split fields on `&` and `;`, split each
field at its first `=`, and skip fields with no `=` or an empty value. -/
def parseQsl (q : List Char) : List (List Char × List Char) :=
  ((q.splitOn '&').flatMap (fun f => f.splitOn ';')).filterMap (fun nv =>
    match nv.findIdx? (fun d => d = '=') with
    | some i => if nv.drop (i + 1) = [] then none else some (nv.take i, nv.drop (i + 1))
    | none => none)

/-- `ZFSURL.query_fields` restricted to one key: `parse_qs` keeps the values
of each key in order and `query_fields` takes the first one. -/
def ZFSURL.queryField (z : ZFSURL) (k : List Char) : Option (List Char) :=
  (((parseQsl z.u.query).filter (fun p => p.1 = k)).head?).map (fun p => p.2)

/-- The Python exception surfaced by `ZFSURL.new`. -/
inductive PyErr where
  | nameError : PyErr
deriving DecidableEq, Repr

/-- `ZFSURL.new` (zfs/url.py): the branch normalizing a pool that starts with
`/` reads the undefined local `path`, so Python raises `NameError` there; the
successful path strips a leading slash and a leading pool prefix from the
filesystem, then assembles `zfs://host/pool[/filesystem][@snapshot]`.  Empty
strings count as absent (`if filesystem:` truthiness). -/
def ZFSURL.new (host pool : List Char) (filesystem snapshot : Option (List Char)) :
    Except PyErr ZFSURL :=
  if pool.head? = some '/' then Except.error PyErr.nameError
  else
    let fs1 : Option (List Char) :=
      match filesystem with
      | some f =>
        if f ≠ [] then
          let f1 := if f.head? = some '/' then f.drop 1 else f
          let f2 := if pool.isPrefixOf f1 then f1.drop (pool.length + 1) else f1
          some f2
        else some f
      | none => none
    let base0 := "zfs://".data ++ host ++ ['/'] ++ pool
    let base1 := match fs1 with
      | some f => if f ≠ [] then base0 ++ ['/'] ++ f else base0
      | none => base0
    let base2 := match snapshot with
      | some ss => if ss ≠ [] then base1 ++ ['@'] ++ ss else base1
      | none => base1
    Except.ok (ZFSURL.ofChars base2)

/-! ## Version bundler (bit/bundler.py) -/

/-- A bundler input record: `(path, meta)`, with the metadata abstracted to a
tag. -/
abbrev BEntry := List Char × Nat

/-- The result of `Bundler.bundle`: an insertion-ordered map from path
prefixes to insertion-ordered maps from version tokens to entry lists. -/
abbrev BOut := List (List Char × List (List Char × List BEntry))

/-- Dictionary lookup on the outer map. -/
def lookupBy : BOut → List Char → Option (List (List Char × List BEntry))
  | [], _ => none
  | kv :: rest, p => if kv.1 = p then some kv.2 else lookupBy rest p

/-- First character class of `re_version`, the literal set `_ / \ -`. -/
def versionCls1 (c : Char) : Bool :=
  c = '_' ∨ c = '/' ∨ c = '\\' ∨ c = '-'

/-- Third character class of `re_version`: in `[_/\\-\\.]` the middle `\-\`
forms the degenerate range backslash-to-backslash, so the set is `_ / \ .`
(no hyphen). -/
def versionCls3 (c : Char) : Bool :=
  c = '_' ∨ c = '/' ∨ c = '\\' ∨ c = '.'

/-- Match of `re_version = ([_/\-]v)(\d+)([_/\.])` anchored at offset `i`,
returning the span of group 2.  Since no digit is in the third class, the
greedy `\d+` can only succeed with the maximal digit run, so backtracking
reduces to checking the character right after the run. -/
def versionMatchAt (p : List Char) (i : Nat) : Option (Nat × Nat) :=
  match p.drop i with
  | c0 :: c1 :: rest =>
    if versionCls1 c0 ∧ c1 = 'v' then
      let ds := rest.takeWhile Char.isDigit
      if ds ≠ [] then
        match (rest.drop ds.length).head? with
        | some c2 => if versionCls3 c2 then some (i + 2, i + 2 + ds.length) else none
        | none => none
      else none
    else none
  | _ => none

/-- `Bundler._extract_version_span`: the span of group 2 of the leftmost
`re_version` match, if any. -/
def extractVersionSpan (p : List Char) : Option (Nat × Nat) :=
  (List.range p.length).findSome? (versionMatchAt p)

/-- `bundle_dict.setdefault(version, [])` inside an existing prefix entry. -/
def ensureVer (vl : List (List Char × List BEntry)) (v : List Char) :
    List (List Char × List BEntry) :=
  match vl with
  | [] => [(v, [])]
  | (w, es) :: r => if w = v then (w, es) :: r else (w, es) :: ensureVer r v

/-- `out.setdefault(prefix, dict())` followed by the version `setdefault`. -/
def ensureKey (out : BOut) (p v : List Char) : BOut :=
  match out with
  | [] => [(p, [(v, [])])]
  | (q, vl) :: rest =>
    if q = p then (q, ensureVer vl v) :: rest else (q, vl) :: ensureKey rest p v

/-- `bundle.append((path, meta))`: the in-place append to the list installed
at `(prefix, version)`. -/
def appendAt (out : BOut) (p v : List Char) (e : BEntry) : BOut :=
  out.map (fun kv =>
    if kv.1 = p then
      (kv.1, kv.2.map (fun ve => if ve.1 = v then (ve.1, ve.2 ++ [e]) else ve))
    else kv)

/-- `Bundler._prune_entry`: delete the entry at the prefix when it holds
exactly one version with fewer than two paths; keep it when the prefix is
absent, holds several versions, or its single version has two or more paths.
Called with `None` (no current prefix) it finds nothing and changes
nothing. -/
def pruneEntry : BOut → Option (List Char) → BOut
  | out, none => out
  | out, some p =>
    match lookupBy out p with
    | none => out
    | some vl =>
      if 1 < vl.length then out
      else
        match vl with
        | [(_, es)] => if es.length < 2 then out.filter (fun kv => kv.1 ≠ p) else out
        | _ => out

/-- One iteration of the record loop in `Bundler.bundle`.  For a versioned
record the prefix and version entries are installed first, then — when the
prefix changed away from a truthy current prefix — the previous prefix is
pruned, and finally the record is appended.  A record without a version token
prunes the current prefix and clears it.  The Python truthiness test
`if cur_prefix` makes an empty-string prefix unprunable on change. -/
def bundleStep (st : BOut × Option (List Char)) (rec : BEntry) :
    BOut × Option (List Char) :=
  match extractVersionSpan rec.1 with
  | some sp =>
    let p := rec.1.take sp.1
    let v := (rec.1.drop sp.1).take (sp.2 - sp.1)
    let out1 := ensureKey st.1 p v
    let out2 :=
      match st.2 with
      | some cp => if cp ≠ [] ∧ cp ≠ p then pruneEntry out1 (some cp) else out1
      | none => out1
    (appendAt out2 p v rec, some p)
  | none => (pruneEntry st.1 st.2, none)

/-- `Bundler.bundle` (bit/bundler.py): fold the record stream; the final
current prefix is returned without a closing prune. -/
def Bundler.bundle (records : List BEntry) : BOut :=
  (records.foldl bundleStep ([], none)).1

/-! ## Snapshot sender (zfs/snapshot.py) -/

/-- `ss_index`: index of the first source snapshot with the given name
(Python returns -1, embedded as `none`). -/
def ssIndex (name : String) (ssl : List String) : Option Nat :=
  ssl.findIdx? (fun n => n == name)

/-- The common-snapshot search of `_dest_info`: walking the source snapshots
newest first, the first name also present on the destination; result is its
index in the ascending source list. -/
def lastCommonIdx (ssss dss : List String) : Option Nat :=
  match ssss.reverse.findIdx? (fun n => dss.contains n) with
  | some sid => some (ssss.length - sid - 1)
  | none => none

/-- `dest_ss_drop`: the position of the common snapshot counted from the
newest destination snapshot — the number of destination snapshots newer than
it.  (Stays 0 when the name is absent, as in the source.) -/
def destDrop (dss : List String) (commonName : String) : Nat :=
  match dss.reverse.findIdx? (fun n => n == commonName) with
  | some sid => sid
  | none => 0

/-- The fields of the `_dest_info` result that drive `stream_script`'s plan
selection: whether the destination filesystem exists, the index of the first
snapshot to send (`ss_from_inst`, `none` when everything is sent), the index
of the last snapshot (`ss_to_inst`), and `dest_ss_drop`.  Two instance fields
are the same Python object exactly when both are `None` or both are the same
source-list index, which the embedding compares with `Option.DecidableEq`.
The size and URL bookkeeping of `_dest_info` is not consulted by the claims
and is omitted. -/
structure DestInfo where
  destExists : Bool
  ssFrom : Option Nat
  ssTo : Option Nat
  destSsDrop : Nat
deriving DecidableEq, Repr

/-- `SnapshotSender._dest_info` (zfs/snapshot.py), over the ascending source
snapshot names `ssss` and the destination filesystem's ascending snapshot
names (`none` when the destination filesystem does not exist).  When the
latest destination snapshot occurs in the source list, send from there; when
not, fall back to the newest common name and count the newer destination
snapshots as `dest_ss_drop`; with no common name, or no destination, send
everything (`ss_from = None`). -/
def SnapshotSender.destInfo (ssss : List String) (dest : Option (List String)) :
    DestInfo :=
  match dest with
  | some dss =>
    let ssid0 : Option Nat :=
      match dss.getLast? with
      | some dlss => ssIndex dlss ssss
      | none => none
    match ssid0 with
    | some ssid => ⟨true, some ssid, some (ssss.length - 1), 0⟩
    | none =>
      match lastCommonIdx ssss dss with
      | some ssid =>
        ⟨true, some ssid, some (ssss.length - 1), destDrop dss (ssss.getD ssid "")⟩
      | none => ⟨true, none, if ssss.isEmpty then none else some (ssss.length - 1), 0⟩
  | none => ⟨false, none, if ssss.isEmpty then none else some (ssss.length - 1), 0⟩

/-- A line written by `stream_script`: either a comment (`# ...`), or the
single transport pipeline.  The pipeline line carries the `zfs rollback -r`
prefix (joined in front with `&&`), the send `-R` flag and the receive `-F`
flag; these three are the only places the emitted shell text differs in
shape.  The rollback prefix is the only destination-snapshot-destroying
command the generator ever emits, and it always precedes the send. -/
inductive ScriptLine where
  | comment : ScriptLine
  | transfer (rollback replicate force : Bool) : ScriptLine
deriving DecidableEq, Repr

/-- Whether a script line carries the `zfs rollback -r` prefix. -/
def hasRollback : ScriptLine → Bool
  | ScriptLine.transfer rb _ _ => rb
  | ScriptLine.comment => false

/-- Whether a script line is the transport pipeline (as opposed to a comment). -/
def isTransfer : ScriptLine → Bool
  | ScriptLine.transfer _ _ _ => true
  | ScriptLine.comment => false

/-- The emission logic of `stream_script` given the plan fields: nothing to
send (`ss_from_inst is ss_to_inst`) writes a comment only; a missing
destination with a matching snapshot, or an existing destination without a
common snapshot, write a commented error; otherwise a leading comment and the
pipeline, whose rollback prefix appears exactly when `dest_ss_drop` is
non-zero (destination-exists path) and whose `-R`/`-F` flags follow the
resolved replication mode (a new destination always sends `-R`). -/
def scriptOf (info : DestInfo) (replicateMode : Option String) : List ScriptLine :=
  let force := replicateMode == some "replicate_force"
  if info.ssFrom = info.ssTo then [ScriptLine.comment]
  else if info.destExists = false then
    if info.ssFrom ≠ none then [ScriptLine.comment]
    else [ScriptLine.comment, ScriptLine.transfer false true force]
  else if info.ssFrom = none then [ScriptLine.comment]
  else
    [ScriptLine.comment,
      ScriptLine.transfer (info.destSsDrop ≠ 0) (replicateMode ≠ none) force]

/-- `SnapshotSender.stream_script` (zfs/snapshot.py): recompute `_dest_info`,
resolve the `sync` query field of the destination URL (invalid values are
logged and ignored), and emit the script. -/
def SnapshotSender.streamScript (ssss : List String) (dest : Option (List String))
    (syncField : Option String) : List ScriptLine :=
  let replicateMode : Option String :=
    match syncField with
    | some s => if s = "replicate" ∨ s = "replicate_force" then some s else none
    | none => none
  scriptOf (SnapshotSender.destInfo ssss dest) replicateMode

/-! # Theorems -/

/-- `ensureKey` makes the prefix present. -/
theorem lookupBy_ensureKey (out : BOut) (p v : List Char) :
    lookupBy (ensureKey out p v) p ≠ none := by
  induction out with
  | nil => simp [ensureKey, lookupBy]
  | cons kv rest ih =>
    obtain ⟨q, vl⟩ := kv
    by_cases h : q = p
    · simp [ensureKey, h, lookupBy]
    · simpa [ensureKey, h, lookupBy, List.find?] using ih

/-- `appendAt` never removes a prefix. -/
theorem lookupBy_appendAt (p v : List Char) (e : BEntry) (q : List Char) :
    ∀ out : BOut, lookupBy out q ≠ none → lookupBy (appendAt out p v e) q ≠ none := by
  intro out
  induction out with
  | nil => simp [lookupBy]
  | cons kv rest ih =>
    intro h
    by_cases hq : kv.1 = q <;> by_cases hp : kv.1 = p <;>
      simp_all [lookupBy, appendAt]

/-- Lookup of one key ignores a filter that removes another key. -/
theorem lookupBy_filter_other_key (q p : List Char) (h : p ≠ q) :
    ∀ out : BOut, lookupBy (out.filter (fun kv => kv.1 ≠ q)) p = lookupBy out p := by
  intro out
  induction out with
  | nil => simp
  | cons kv rest ih =>
    rw [List.filter_cons]
    by_cases hq : kv.1 = q
    · have hkp : ¬kv.1 = p := fun hp => h (by rw [← hp, hq])
      rw [if_neg (by simp [hq]), ih, lookupBy, if_neg hkp]
    · rw [if_pos (by simp [hq])]
      by_cases hp : kv.1 = p
      · rw [lookupBy, lookupBy, if_pos hp, if_pos hp]
      · rw [lookupBy, lookupBy, if_neg hp, if_neg hp, ih]

/-- `pruneEntry` either keeps the map or deletes exactly the given prefix. -/
theorem pruneEntry_some_cases (out : BOut) (cp : List Char) :
    pruneEntry out (some cp) = out ∨
      pruneEntry out (some cp) = out.filter (fun kv => kv.1 ≠ cp) := by
  simp only [pruneEntry]
  repeat' split
  all_goals first | exact Or.inl rfl | exact Or.inr rfl

/-- Pruning one prefix leaves lookups of any other prefix unchanged. -/
theorem lookupBy_pruneEntry_other (out : BOut) (cp p : List Char) (h : p ≠ cp) :
    lookupBy (pruneEntry out (some cp)) p = lookupBy out p := by
  rcases pruneEntry_some_cases out cp with he | he <;> rw [he]
  exact lookupBy_filter_other_key cp p h out

/-- Processing a versioned record leaves its own prefix present in the map:
the prune in the step only ever targets the previous, different prefix. -/
theorem bundleStep_lookup (out0 : BOut) (cur0 : Option (List Char)) (rec : BEntry)
    (a b : Nat) (h : extractVersionSpan rec.1 = some (a, b)) :
    lookupBy (bundleStep (out0, cur0) rec).1 (rec.1.take a) ≠ none := by
  cases cur0 with
  | none =>
    simp only [bundleStep, h]
    exact lookupBy_appendAt _ _ rec _ _ (lookupBy_ensureKey out0 _ _)
  | some cp =>
    simp only [bundleStep, h]
    by_cases hc : cp ≠ [] ∧ cp ≠ rec.1.take a
    · rw [if_pos hc]
      refine lookupBy_appendAt _ _ rec _ _ ?_
      rw [lookupBy_pruneEntry_other _ cp _ (fun he => hc.2 (he ▸ rfl))]
      exact lookupBy_ensureKey out0 _ _
    · rw [if_neg hc]
      exact lookupBy_appendAt _ _ rec _ _ (lookupBy_ensureKey out0 _ _)

/-- C10: a versioned record at the end of the stream always leaves its prefix
in the returned map — pruning happens only when a later record switches
prefix or carries no version — and concretely a final prefix survives with a
single version holding a single entry while the identically shaped previous
prefix was pruned. -/
theorem bundler_final_prefix_survives :
    (∀ (recs : List BEntry) (path : List Char) (meta a b : Nat),
      extractVersionSpan path = some (a, b) →
      lookupBy (Bundler.bundle (recs ++ [(path, meta)])) (path.take a) ≠ none) ∧
    Bundler.bundle [("a_v1.x".data, 0), ("b_v2.x".data, 1)]
      = [("b_v".data, [("2".data, [("b_v2.x".data, 1)])])] := by
  constructor
  · intro recs path meta a b h
    have hb : Bundler.bundle (recs ++ [(path, meta)])
        = (bundleStep (recs.foldl bundleStep ([], none)) (path, meta)).1 := by
      simp [Bundler.bundle, List.foldl_append]
    rw [hb]
    obtain ⟨out0, cur0⟩ := recs.foldl bundleStep ([], none)
    exact bundleStep_lookup out0 cur0 (path, meta) a b h
  · decide

/-- C10 witness: with a one-record history and the final versioned record
`b_v2.x`, its prefix `b_v` is present in the output. -/
theorem bundler_final_prefix_survives_witness :
    lookupBy (Bundler.bundle ([("a_v1.x".data, 0)] ++ [("b_v2.x".data, 1)]))
      ("b_v2.x".data.take 3) ≠ none :=
  bundler_final_prefix_survives.1 [("a_v1.x".data, 0)] "b_v2.x".data 1 3 4 (by decide)

/-- C5 counterexample: cancelling a freshly spooled transaction sets
`finished_at` while `error` stays NULL and `percent_done` is not 100, so the
claimed invariant fails for cancellation. -/
theorem transaction_cancel_cex :
    ¬(((SQLPackageTransaction.cancel ⟨"transfer", none, none, none, none, none, none, 0⟩ 5).finishedAt ≠ none) →
      ((SQLPackageTransaction.cancel ⟨"transfer", none, none, none, none, none, none, 0⟩ 5).error ≠ none ∨
       (SQLPackageTransaction.cancel ⟨"transfer", none, none, none, none, none, none, 0⟩ 5).percentDone = some 100)) := by
  decide

/-- C5 (amended): every transaction record finished through `_completed` —
the completion path after apply or rollback — has `finished_at` set and either
a non-NULL `error` or `percent_done = 100.0`.  Cancellation and the progress
indicator's `end` set `finished_at` without establishing the disjunction. -/
theorem transaction_completed_finished_invariant
    (t : SQLPackageTransaction) (exception : Option String) (now : Int) :
    (SQLPackageTransaction.completed t exception now).finishedAt = some now ∧
    ((SQLPackageTransaction.completed t exception now).error ≠ none ∨
     (SQLPackageTransaction.completed t exception now).percentDone = some 100) := by
  cases exception <;> simp [SQLPackageTransaction.completed]

/-- C6: `can_enqueue` returns false whenever some prior transfer transaction
was rejected; in copy mode, absent rejections, it returns false exactly when a
prior successful copy matches the package's current `stable_since`; hence with
no rejection and no successful copy matching a new `stable_since`, changing the
package's `stable_since` makes it return true. -/
theorem transfer_can_enqueue_spec (p : SQLPackage) :
    (((p.inTransactions.filter (fun t => t.typeName == "transfer")).any
        SQLPackageTransaction.isRejected) = true →
      TransferDropboxTransaction.canEnqueue p "copy" = false) ∧
    (((p.inTransactions.filter (fun t => t.typeName == "transfer")).any
        SQLPackageTransaction.isRejected) = false →
      (TransferDropboxTransaction.canEnqueue p "copy" = false ↔
        ((p.inTransactions.filter (fun t => t.typeName == "transfer")).any
          (fun t => successfulSameState t "copy" p.stableSince)) = true)) ∧
    (∀ s' : Int,
      ((p.inTransactions.filter (fun t => t.typeName == "transfer")).any
        SQLPackageTransaction.isRejected) = false →
      ((p.inTransactions.filter (fun t => t.typeName == "transfer")).any
        (fun t => successfulSameState t "copy" s')) = false →
      TransferDropboxTransaction.canEnqueue { p with stableSince := s' } "copy" = true) := by
  refine ⟨?_, ?_, ?_⟩ <;>
    simp only [TransferDropboxTransaction.canEnqueue, List.filter_reverse,
      List.any_reverse]
  · intro h
    simp [h]
  · intro h
    by_cases hm : (p.inTransactions.filter (fun t => t.typeName == "transfer")).any
        (fun t => successfulSameState t "copy" p.stableSince) = true
    · simp [h, hm]
    · simp [h, hm]
  · intro s' h hm
    simp [h, hm]

/-- C6 witness: a package with one rejected transfer is refused; a package
whose sole successful copy matches an older `stable_since` is allowed again
after `stable_since` changed. -/
theorem transfer_can_enqueue_spec_witness :
    TransferDropboxTransaction.canEnqueue
      ⟨3, [⟨"transfer", some "REJECTED", none, none, some 9, none, some "copy done", 3⟩]⟩
      "copy" = false ∧
    TransferDropboxTransaction.canEnqueue
      ⟨7, [⟨"transfer", some "alice", some 100, some 1, some 9, none, some "copying package", 3⟩]⟩
      "copy" = true := by
  constructor
  · exact (transfer_can_enqueue_spec
      ⟨3, [⟨"transfer", some "REJECTED", none, none, some 9, none, some "copy done", 3⟩]⟩).1
      (by decide)
  · exact (transfer_can_enqueue_spec
      ⟨7, [⟨"transfer", some "alice", some 100, some 1, some 9, none, some "copying package", 3⟩]⟩).2.2
      7 (by decide) (by decide)

/-- C7: syncing with an empty sample list refuses to delete and leaves the
database untouched — `sync` returns before any delete or merge. -/
theorem zsession_sync_empty_noop (db : List ZRow) (host : String) (now : Int) :
    ZSession.sync db host [] now = db := by
  simp [ZSession.sync]

/-- C1: evaluation of `sync` at the failing input.  The database holds the row
`(h2, A)` of another host; syncing host `h1` with the single sample `B` deletes
the name `A` on every host, so `(h2, A)` disappears although the claim requires
rows of other hosts to be left unchanged. -/
theorem zsession_sync_deletes_other_hosts_eval :
    ZSession.sync [⟨"h1", "A", 0⟩, ⟨"h2", "A", 0⟩] "h1" ["B"] 5 = [⟨"h1", "B", 5⟩] ∧
    (⟨"h2", "A", 0⟩ : ZRow) ∉ ZSession.sync [⟨"h1", "A", 0⟩, ⟨"h2", "A", 0⟩] "h1" ["B"] 5 := by
  decide

/-- C3: evaluation at the failing input.  Policy `1-1h:1h` (keep the newest
sample, one slot of 3600 s in a 3600 s period), `now = 10000`, samples at
9998, 9999 and 10000.  The first call keeps the two newest samples but
decrements the policy's `_keep_initial` member to 0; applying the same policy
object's filter to the kept list again therefore drops the sample at 9999
instead of returning the kept list unchanged. -/
theorem retention_filter_not_idempotent_eval :
    RetentionPolicy.filter [(0, 3600, 3600)] 1 10000 [((9998 : Int), 2), (9999, 1), (10000, 0)]
      = ([(10000, 0), (9999, 1)], [(9998, 2)], 0) ∧
    RetentionPolicy.filter [(0, 3600, 3600)] 0 10000 [((10000 : Int), 0), (9999, 1)]
      = ([(10000, 0)], [(9999, 1)], 0) := by
  decide

/-- C4: evaluation at the failing input.  Policy `1h:1h`, `now = 10000`, one
sample in the future at 10001.  The sample is routed to the future list, yet
the last-period top-up re-reads it from `samples[sid]`, so the kept list
contains it twice — the outputs do not partition the input (and the policy's
`_keep_initial` member is even driven to -1). -/
theorem retention_filter_duplicates_sample_eval :
    RetentionPolicy.filter [(0, 3600, 3600)] 0 10000 [((10001 : Int), 7)]
      = ([(10001, 7), (10001, 7)], [], -1) ∧
    (RetentionPolicy.filter [(0, 3600, 3600)] 0 10000 [((10001 : Int), 7)]).1.count
      ((10001 : Int), 7) = 2 := by
  decide

/-- C8 counterexample: the S3 roundtrip fails in its last conjunct — the
parent of `zfs://h1/poolA/fs/sub@snap?sync=replicate` is
`zfs://h1/poolA/fs/sub` without a trailing slash, because
`new_from_dataset` appends the pool-filesystem slash only to pool-level
names, so it differs from `zfs://h1/poolA/fs/sub/`. -/
theorem zfsurl_s3_roundtrip_cex :
    ¬((ZFSURL.ofChars "zfs://h1/poolA/fs/sub@snap?sync=replicate".data).name
        = "poolA/fs/sub@snap".data ∧
      (ZFSURL.ofChars "zfs://h1/poolA/fs/sub@snap?sync=replicate".data).snapshotName
        = some "snap".data ∧
      (ZFSURL.ofChars "zfs://h1/poolA/fs/sub@snap?sync=replicate".data).queryField "sync".data
        = some "replicate".data ∧
      (ZFSURL.ofChars "zfs://h1/poolA/fs/sub@snap?sync=replicate".data).parentFilesystemUrl
        = some (ZFSURL.ofChars "zfs://h1/poolA/fs/sub/".data)) := by
  decide

/-- C8 (amended): name, snapshot name and the `sync` query field are as
claimed, and the parent filesystem URL is `zfs://h1/poolA/fs/sub` — no
trailing slash, since the parent is not a pool-level filesystem. -/
theorem zfsurl_s3_roundtrip_amended :
    (ZFSURL.ofChars "zfs://h1/poolA/fs/sub@snap?sync=replicate".data).name
      = "poolA/fs/sub@snap".data ∧
    (ZFSURL.ofChars "zfs://h1/poolA/fs/sub@snap?sync=replicate".data).snapshotName
      = some "snap".data ∧
    (ZFSURL.ofChars "zfs://h1/poolA/fs/sub@snap?sync=replicate".data).queryField "sync".data
      = some "replicate".data ∧
    (ZFSURL.ofChars "zfs://h1/poolA/fs/sub@snap?sync=replicate".data).parentFilesystemUrl
      = some (ZFSURL.ofChars "zfs://h1/poolA/fs/sub".data) := by
  decide

/-- C9: whenever the pool argument of `ZFSURL.new` begins with a slash, the
normalization branch references the undefined local `path`, so the call
raises `NameError` instead of stripping the slash. -/
theorem zfsurl_new_leading_slash_name_error
    (host pool : List Char) (filesystem snapshot : Option (List Char))
    (h : pool.head? = some '/') :
    ZFSURL.new host pool filesystem snapshot = Except.error PyErr.nameError := by
  simp [ZFSURL.new, h]

/-- C9 witness: the concrete call with pool `/tank` hits the `NameError`
branch. -/
theorem zfsurl_new_leading_slash_name_error_witness :
    "/tank".data.head? = some '/' ∧
    ZFSURL.new "h1".data "/tank".data none none = Except.error PyErr.nameError :=
  ⟨by decide,
   zfsurl_new_leading_slash_name_error "h1".data "/tank".data none none (by decide)⟩

/-- When the destination filesystem does not exist, `_dest_info` reports no
dropped destination snapshots. -/
theorem destInfo_drop_of_not_exists (ssss : List String) (dest : Option (List String)) :
    (SnapshotSender.destInfo ssss dest).destExists = false →
    (SnapshotSender.destInfo ssss dest).destSsDrop = 0 := by
  cases dest with
  | none => intro _; rfl
  | some dss =>
    intro h
    exfalso
    revert h
    simp only [SnapshotSender.destInfo]
    repeat' split <;> simp

/-- The script-emission logic: whenever a transport pipeline is emitted at
all, its rollback prefix appears exactly when `dest_ss_drop` is positive; and
an existing destination with no common snapshot never yields a pipeline. -/
theorem scriptOf_rollback_spec (info : DestInfo) (rm : Option String)
    (hdrop : info.destExists = false → info.destSsDrop = 0) :
    ((scriptOf info rm).any isTransfer = true →
      ((scriptOf info rm).any hasRollback = true ↔ 0 < info.destSsDrop)) ∧
    (info.destExists = true → info.ssFrom = none →
      (scriptOf info rm).any isTransfer = false) := by
  unfold scriptOf
  by_cases h1 : info.ssFrom = info.ssTo
  · simp [h1, isTransfer, hasRollback]
  · by_cases h2 : info.destExists = false
    · by_cases h3 : info.ssFrom ≠ none
      · simp [h1, h2, h3, isTransfer, hasRollback]
      · simp [h1, h2, h3, isTransfer, hasRollback, hdrop h2]
    · by_cases h4 : info.ssFrom = none
      · simp [h1, h2, h4, isTransfer, hasRollback]
      · simp [h1, h2, h4, isTransfer, hasRollback, Nat.pos_iff_ne_zero]

/-- C2 counterexample: source snapshots `[a]`, destination snapshots `[a, b]`
(the destination kept a newer snapshot `b` unknown to the source).  The
computed `dest_ss_drop` is 1, yet the sole matching snapshot is also the last
source snapshot, so `stream_script` returns a comment only — the script does
not contain the rollback although `dest_ss_drop > 0`. -/
theorem snapshot_sender_rollback_iff_cex :
    ¬(((SnapshotSender.streamScript ["a"] (some ["a", "b"]) none).any hasRollback = true) ↔
      0 < (SnapshotSender.destInfo ["a"] (some ["a", "b"])).destSsDrop) := by
  decide

/-- C2 (amended): whenever the emitted script contains the transport pipeline
at all, it carries the `zfs rollback -r` prefix iff `dest_ss_drop > 0`; and
for an existing destination with no common snapshot the script is
comment-only (never a destructive command).  When nothing is to be sent the
script is comment-only even if `dest_ss_drop > 0`. -/
theorem snapshot_sender_rollback_amended (ssss : List String)
    (dest : Option (List String)) (syncField : Option String) :
    ((SnapshotSender.streamScript ssss dest syncField).any isTransfer = true →
      ((SnapshotSender.streamScript ssss dest syncField).any hasRollback = true ↔
        0 < (SnapshotSender.destInfo ssss dest).destSsDrop)) ∧
    ((SnapshotSender.destInfo ssss dest).destExists = true →
      (SnapshotSender.destInfo ssss dest).ssFrom = none →
      (SnapshotSender.streamScript ssss dest syncField).any isTransfer = false) := by
  unfold SnapshotSender.streamScript
  exact scriptOf_rollback_spec _ _ (destInfo_drop_of_not_exists ssss dest)

/-- C2 witness: an ordinary incremental plan (source `[a, b]`, destination
`[a]`) emits a pipeline, and its rollback prefix matches `dest_ss_drop = 0`;
an existing destination with no snapshots in common (destination `[]`) emits
no pipeline. -/
theorem snapshot_sender_rollback_amended_witness :
    (((SnapshotSender.streamScript ["a", "b"] (some ["a"]) none).any hasRollback = true) ↔
      0 < (SnapshotSender.destInfo ["a", "b"] (some ["a"])).destSsDrop) ∧
    (SnapshotSender.streamScript ["a"] (some ([] : List String)) none).any isTransfer = false := by
  constructor
  · exact (snapshot_sender_rollback_amended ["a", "b"] (some ["a"]) none).1 (by decide)
  · exact (snapshot_sender_rollback_amended ["a"] (some []) none).2 (by decide) (by decide)
